import Mathlib

/-!
Verification development for the EchOcean repository: a shallow embedding of
the client-side validation, rate-limiting, cache-lock and retry logic
(src/lib/security.ts, src/lib/cacheLock.ts, src/lib/dataCache.ts,
src/hooks/useDriftBottle.ts, the receive page) and of the DriftBottle
Solidity contract, together with theorems settling the specification
claims about them.

Strings that flow through the JavaScript code are modelled as lists of
UTF-16 code units (`JSStr`), so that `.length`, `.trim()` and indexing
match JavaScript semantics exactly.  Ethereum addresses and cache keys,
which are ASCII in every reachable state, are modelled as Lean `String`.
-/

namespace EchOcean

/-- A JavaScript string, as its list of UTF-16 code units. -/
abbrev JSStr := List Nat

/-- The set of code units removed by JavaScript `String.prototype.trim`:
ECMAScript WhiteSpace (TAB, VT, FF, SP, NBSP, ZWNBSP and the Unicode Zs
category) together with the LineTerminator code points. -/
def jsWhitespace (c : Nat) : Bool :=
  c == 9 || c == 10 || c == 11 || c == 12 || c == 13 || c == 32 ||
  c == 0xA0 || c == 0x1680 ||
  (0x2000 ≤ c && c ≤ 0x200A) ||
  c == 0x2028 || c == 0x2029 || c == 0x202F || c == 0x205F ||
  c == 0x3000 || c == 0xFEFF

/-- JavaScript `content.trim()`: drop whitespace code units from both ends. -/
def jsTrim (s : JSStr) : JSStr :=
  ((s.dropWhile jsWhitespace).reverse.dropWhile jsWhitespace).reverse

/-! ### src/lib/security.ts -/

/-- The `MAX_LENGTHS.content` in src/lib/security.ts. -/
def MAX_LENGTHS_content : Nat := 500

/-- The `MAX_LENGTHS.reply` in src/lib/security.ts. -/
def MAX_LENGTHS_reply : Nat := 500

/-- The distinct rejection reasons thrown by `sanitizeBottleContent` /
`sanitizeReplyContent`, in the order the source tests them. -/
inductive ContentError where
  | emptyContent      -- "内容不能为空" (falsy input or empty after trim)
  | overLength        -- "内容长度不能超过 … 个字符"
  | dangerousContent  -- a DANGEROUS_PATTERNS regex matched
  | unsupportedChars  -- VALIDATION_PATTERNS test failed
deriving DecidableEq, Repr

/-- The `sanitizeBottleContent` from src/lib/security.ts.  The two regex
batteries (`DANGEROUS_PATTERNS` and `VALIDATION_PATTERNS.content`) and the
final `DOMPurify.sanitize` call are external-library behaviour and are
passed in as oracles `dangerousTest`, `patternOk` and `purify`; every
theorem below holds for all choices of these oracles.  The length checks,
their order and the trim are translated literally. -/
def sanitizeBottleContent (dangerousTest patternOk : JSStr → Bool)
    (purify : JSStr → JSStr) (content : JSStr) : Except ContentError JSStr :=
  if content = [] then .error .emptyContent
  else
    let trimmed := jsTrim content
    if trimmed.length = 0 then .error .emptyContent
    else if trimmed.length > MAX_LENGTHS_content then .error .overLength
    else if dangerousTest trimmed then .error .dangerousContent
    else if ¬ patternOk trimmed then .error .unsupportedChars
    else .ok (purify trimmed)

/-- The `sanitizeReplyContent` from src/lib/security.ts; same shape as
`sanitizeBottleContent` with `MAX_LENGTHS.reply` and the reply regexes. -/
def sanitizeReplyContent (dangerousTest patternOk : JSStr → Bool)
    (purify : JSStr → JSStr) (content : JSStr) : Except ContentError JSStr :=
  if content = [] then .error .emptyContent
  else
    let trimmed := jsTrim content
    if trimmed.length = 0 then .error .emptyContent
    else if trimmed.length > MAX_LENGTHS_reply then .error .overLength
    else if dangerousTest trimmed then .error .dangerousContent
    else if ¬ patternOk trimmed then .error .unsupportedChars
    else .ok (purify trimmed)

/-! ### JavaScript `Map` as an insertion-ordered association list
(`map.set` on an existing key updates in place, otherwise appends;
`map.delete` removes the entry; `map.keys().next().value` is the head). -/

/-- The `map.get(k)` (first matching entry). -/
def jsMapGet {V : Type} (m : List (String × V)) (k : String) : Option V :=
  (m.find? (fun p => p.1 = k)).map (·.2)

/-- The `map.has(k)`. -/
def jsMapHas {V : Type} (m : List (String × V)) (k : String) : Bool :=
  m.any (fun p => p.1 = k)

/-- The `map.set(k, v)`: replace in place if present, else append. -/
def jsMapSet {V : Type} (m : List (String × V)) (k : String) (v : V) :
    List (String × V) :=
  if jsMapHas m k then m.map (fun p => if p.1 = k then (k, v) else p)
  else m ++ [(k, v)]

/-- The `map.delete(k)` (keys are unique in every reachable map, so removing
the first match is removing the entry). -/
def jsMapDelete {V : Type} (m : List (String × V)) (k : String) :
    List (String × V) :=
  match m with
  | [] => []
  | p :: rest => if p.1 = k then rest else p :: jsMapDelete rest k

/-! ### `RateLimiter` (src/lib/security.ts) -/

/-- The `attempts` map of the `RateLimiter` singleton: identifier to the
list of recorded attempt timestamps (milliseconds, `Date.now()`). -/
abbrev LimiterMap := List (String × List Int)

/-- The `RateLimiter.isAllowed(identifier, maxAttempts, windowMs)` evaluated at
time `now`, returning the updated `attempts` map and the boolean result.
Mirrors the source: read (or initialise) the identifier's list, keep only
timestamps strictly inside the rolling window, deny if at least
`maxAttempts` remain, otherwise record `now` and allow. -/
def isAllowed (attempts : LimiterMap) (identifier : String)
    (maxAttempts : Nat) (windowMs now : Int) : LimiterMap × Bool :=
  let userAttempts := (jsMapGet attempts identifier).getD []
  let valid := userAttempts.filter (fun t => t > now - windowMs)
  if maxAttempts ≤ valid.length then
    (jsMapSet attempts identifier valid, false)
  else
    (jsMapSet attempts identifier (valid ++ [now]), true)

/-! ### useDriftBottle mutating pipelines (src/hooks/useDriftBottle.ts) -/

/-- The `validateBottleId` from src/lib/security.ts on a `number` argument:
`id.toString()` must match `^\d+$` (so `id` is a non-negative integer)
and `parseInt` of it must be at most `Number.MAX_SAFE_INTEGER`. -/
def validateBottleId (id : Int) : Bool :=
  0 ≤ id && id ≤ (2 ^ 53 - 1 : Int)

/-- A `writeContract` invocation issued by the hook: the contract function
name and its encoded arguments. -/
structure WriteCall where
  functionName : String
  bottleIdArg : Option Int
  contentArg : Option JSStr
deriving DecidableEq, Repr

/-- The ways a hook mutator can throw before (or instead of) writing. -/
inductive HookError where
  | notConnected      -- wallet not connected / connection unstable
  | noContract        -- DRIFT_BOTTLE_CONTRACT_ADDRESS unset
  | rateLimited       -- rateLimiter.isAllowed returned false
  | invalidBottleId   -- validateBottleId failed
  | invalidContent (e : ContentError)  -- sanitize threw
deriving DecidableEq, Repr

/-- The `sendBottle` from useDriftBottle up to the `writeContract` call:
connection guard, contract-address guard, `rateLimiter.isAllowed(address
|| 'anonymous', 5, 60000)`, `sanitizeBottleContent`, then the write.
Returns the updated limiter map together with either the thrown error or
the single `writeContract` call issued. -/
def hookSendBottle (connected stable hasContract : Bool) (lim : LimiterMap)
    (address : Option String) (now : Int)
    (dangerousTest patternOk : JSStr → Bool) (purify : JSStr → JSStr)
    (content : JSStr) : LimiterMap × Except HookError WriteCall :=
  if ¬ (connected ∧ stable) then (lim, .error .notConnected)
  else if ¬ hasContract then (lim, .error .noContract)
  else
    let res := isAllowed lim (address.getD "anonymous") 5 60000 now
    if ¬ res.2 then (res.1, .error .rateLimited)
    else
      match sanitizeBottleContent dangerousTest patternOk purify content with
      | .error e => (res.1, .error (.invalidContent e))
      | .ok sc => (res.1, .ok ⟨"sendBottle", none, some sc⟩)

/-- The `replyToBottle` from useDriftBottle up to the `writeContract` call:
connection guard, contract guard, `validateBottleId`, `rateLimiter
.isAllowed(address + '_reply', 10, 60000)`, `sanitizeReplyContent`, then
the write. -/
def hookReplyToBottle (connected stable hasContract : Bool)
    (lim : LimiterMap) (address : Option String) (now : Int)
    (bottleId : Int) (dangerousTest patternOk : JSStr → Bool)
    (purify : JSStr → JSStr) (content : JSStr) :
    LimiterMap × Except HookError WriteCall :=
  if ¬ (connected ∧ stable) then (lim, .error .notConnected)
  else if ¬ hasContract then (lim, .error .noContract)
  else if ¬ validateBottleId bottleId then (lim, .error .invalidBottleId)
  else
    let res := isAllowed lim (address.getD "anonymous" ++ "_reply") 10 60000 now
    if ¬ res.2 then (res.1, .error .rateLimited)
    else
      match sanitizeReplyContent dangerousTest patternOk purify content with
      | .error e => (res.1, .error (.invalidContent e))
      | .ok sc => (res.1, .ok ⟨"replyToBottle", some bottleId, some sc⟩)

/-- The `skipBottle` from useDriftBottle up to the `writeContract` call:
connection guard, contract guard, `validateBottleId`, `rateLimiter
.isAllowed(address + '_skip', 20, 60000)`, then the write. -/
def hookSkipBottle (connected stable hasContract : Bool) (lim : LimiterMap)
    (address : Option String) (now : Int) (bottleId : Int) :
    LimiterMap × Except HookError WriteCall :=
  if ¬ (connected ∧ stable) then (lim, .error .notConnected)
  else if ¬ hasContract then (lim, .error .noContract)
  else if ¬ validateBottleId bottleId then (lim, .error .invalidBottleId)
  else
    let res := isAllowed lim (address.getD "anonymous" ++ "_skip") 20 60000 now
    if ¬ res.2 then (res.1, .error .rateLimited)
    else (res.1, .ok ⟨"skipBottle", some bottleId, none⟩)

/-! ### The in-memory `bottleDataCache` of useDriftBottle -/

/-- The `MAX_CACHE_SIZE` in useDriftBottle. -/
def MAX_CACHE_SIZE : Nat := 100

/-- An entry of `bottleDataCache`: the cached payload with the timestamp
recorded at insertion.  The payload type is abstract. -/
structure CacheEntry (α : Type) where
  data : α
  timestamp : Int
deriving DecidableEq, Repr

/-- The overridden `cache.set` of `bottleDataCache`: when the map already
holds at least `MAX_CACHE_SIZE` entries, first delete the oldest key
(`cache.keys().next().value`, the head of the insertion order), then
perform the ordinary `Map.set`. -/
def bottleCacheSet {α : Type} (m : List (String × CacheEntry α))
    (k : String) (v : CacheEntry α) : List (String × CacheEntry α) :=
  let m' := if MAX_CACHE_SIZE ≤ m.length then
      match m with
      | [] => m
      | p :: _ => jsMapDelete m p.1
    else m
  jsMapSet m' k v

/-- The mutations `readBottleData` / `readBottleReplies` apply to
`bottleDataCache`: deleting an expired entry, or inserting through the
overridden `set`. -/
inductive CacheOp (α : Type) where
  | del (k : String)
  | ins (k : String) (v : CacheEntry α)

/-- Apply one cache mutation. -/
def applyCacheOp {α : Type} (m : List (String × CacheEntry α)) :
    CacheOp α → List (String × CacheEntry α)
  | .del k => jsMapDelete m k
  | .ins k v => bottleCacheSet m k v

/-- Apply a sequence of cache mutations in order. -/
def applyCacheOps {α : Type} (m : List (String × CacheEntry α)) :
    List (CacheOp α) → List (String × CacheEntry α)
  | [] => m
  | op :: rest => applyCacheOps (applyCacheOp m op) rest

/-! ### `readBottleData` retry loop (src/hooks/useDriftBottle.ts) -/

/-- What one `readContract('getBottle', …)` attempt produces, after the
error-classification in the catch block: a validated result, or an error
whose message matched the not-found patterns (`Bottle does not exist`,
`execution reverted`, …), or one whose message matched the
network/timeout patterns, or neither. -/
inductive ReadAttempt (α : Type) where
  | ok (data : α)
  | err (notFound network : Bool)

/-- The outcome of `readBottleData`: the returned value (`null` is
`none`), the number of `readContract` attempts performed, and the list of
backoff delays (ms) slept between attempts. -/
structure ReadRun (α : Type) where
  value : Option α
  attemptsUsed : Nat
  delays : List Int
deriving Repr

/-- The retry loop of `readBottleData bottleId retryCount`, with the
`readContract` + validation pipeline of attempt `k` abstracted as
`attempt k`.  Entry guards (invalid id, missing contract address, wallet
not connected) return `null` with no attempt; a fresh cache hit (entry
younger than 5 minutes) returns the cached value with no attempt; a
not-found-classified error returns `null`; a network-classified error
with `retryCount < 3` sleeps `min(2^retryCount * 1000, 8000)` ms and
re-enters the whole function with `retryCount + 1` (the cache, unchanged
by this call, misses again); any other error returns `null`. -/
def readBottleDataFetch {α : Type} (attempt : Nat → ReadAttempt α)
    (retryCount : Nat) : ReadRun α :=
  match attempt retryCount with
  | .ok d => ⟨some d, 1, []⟩
  | .err notFound network =>
    if notFound then ⟨none, 1, []⟩
    else if retryCount < 3 ∧ network then
      let delay : Int := min (2 ^ retryCount * 1000) 8000
      let r := readBottleDataFetch attempt (retryCount + 1)
      ⟨r.value, r.attemptsUsed + 1, delay :: r.delays⟩
    else ⟨none, 1, []⟩
  termination_by 4 - retryCount

/-- The entry guards and cache check of `readBottleData bottleId
retryCount` around the fetch/retry loop above: invalid id, missing
contract address or unstable wallet connection return `null` with no
attempt; a fresh cache hit (entry younger than 5 minutes) returns the
cached value with no attempt; otherwise (the expired entry is deleted
and) the fetch loop runs. -/
def readBottleData {α : Type} (validId hasContract connected stable : Bool)
    (cached : Option (CacheEntry α)) (now : Int)
    (attempt : Nat → ReadAttempt α) (retryCount : Nat) : ReadRun α :=
  if ¬ validId then ⟨none, 0, []⟩
  else if ¬ hasContract then ⟨none, 0, []⟩
  else if ¬ (connected ∧ stable) then ⟨none, 0, []⟩
  else
    match cached with
    | some c =>
      if now - c.timestamp < 5 * 60 * 1000 then ⟨some c.data, 0, []⟩
      else readBottleDataFetch attempt retryCount
    | none => readBottleDataFetch attempt retryCount

/-! ### src/lib/cacheLock.ts -/

/-- A `CacheLock` record (the `key` field is the map key and is left
implicit). -/
structure CacheLock where
  timestamp : Int
  expiry : Int
deriving DecidableEq, Repr

/-- The `locks` map of `CacheLockManager`. -/
abbrev LockTable := List (String × CacheLock)

/-- The `defaultExpiry` of `CacheLockManager` (30 seconds). -/
def defaultExpiry : Int := 30000

/-- The `CacheLockManager.acquireLock(key, expiryMs)` at time `now`: refuse if
an existing lock for the key has `expiry > now`, otherwise store
`{timestamp: now, expiry: now + expiryMs}` and succeed. -/
def acquireLock (locks : LockTable) (key : String) (now expiryMs : Int) :
    LockTable × Bool :=
  match jsMapGet locks key with
  | some l =>
    if l.expiry > now then (locks, false)
    else (jsMapSet locks key ⟨now, now + expiryMs⟩, true)
  | none => (jsMapSet locks key ⟨now, now + expiryMs⟩, true)

/-- The `CacheLockManager.releaseLock(key)`. -/
def releaseLock (locks : LockTable) (key : String) : LockTable :=
  jsMapDelete locks key

/-- The `CacheLockManager.isLocked(key)` at time `now`: a missing entry is
free; an entry with `expiry <= now` is deleted and reported free;
otherwise the key is locked. -/
def isLocked (locks : LockTable) (key : String) (now : Int) :
    LockTable × Bool :=
  match jsMapGet locks key with
  | none => (locks, false)
  | some l =>
    if l.expiry ≤ now then (jsMapDelete locks key, false)
    else (locks, true)

/-- The boolean `isLocked` computes from an observation of the key's lock
cell at time `now` (used by the polling model below, where the cell over
time is an environment `env : Int → Option CacheLock` that also accounts
for concurrent acquisitions and releases by other tasks). -/
def isLockedObs (cell : Option CacheLock) (now : Int) : Bool :=
  match cell with
  | none => false
  | some l => decide (now < l.expiry)

/-- One-key `acquireLock` against the observed cell (same logic as
`acquireLock`): the updated cell and whether acquisition succeeded. -/
def acquireLockObs (cell : Option CacheLock) (now expiryMs : Int) :
    Option CacheLock × Bool :=
  match cell with
  | some l =>
    if l.expiry > now then (cell, false)
    else (some ⟨now, now + expiryMs⟩, true)
  | none => (some ⟨now, now + expiryMs⟩, true)

/-- The `CacheLockManager.waitForLock(key, maxWaitMs, pollIntervalMs)` started
at `start`: the loop checks `isLocked` at times `start + k * poll` while
`now - start < maxWaitMs`, sleeping `poll` between checks.  Returns
`.ok t` with the time the key was observed free, or `.error tEnd` with
the time the `while` condition failed (timeout).  `fuel` bounds the loop
iterations; callers supply enough fuel for the whole window. -/
def waitForLockGo (env : Int → Option CacheLock)
    (start maxWaitMs poll : Int) (k : Nat) : Nat → Except Int Int
  | 0 => .error (start + k * poll)
  | fuel + 1 =>
    let now := start + k * poll
    if now - start < maxWaitMs then
      if isLockedObs (env now) now then
        waitForLockGo env start maxWaitMs poll (k + 1) fuel
      else .ok now
    else .error now

/-- The `waitForLock` with fuel covering every poll in the window. -/
def waitForLock (env : Int → Option CacheLock)
    (start maxWaitMs poll : Int) : Except Int Int :=
  waitForLockGo env start maxWaitMs poll 0 (maxWaitMs.toNat / poll.toNat + 2)

/-- How `withLock` finished. -/
inductive WLResult (E T : Type) where
  | nullTimeout          -- waitForLock (or acquireLock) failed: `null`
  | value (t : T)        -- fn resolved; its result is returned
  | thrown (e : E)       -- fn threw; the error is rethrown
deriving DecidableEq, Repr

/-- The observable outcome of one `withLock` run. -/
structure WithLockRun (E T : Type) where
  result : WLResult E T
  opRan : Bool                 -- whether `fn` was executed
  finalCell : Option CacheLock -- the key's lock cell when withLock returns
deriving Repr

/-- The `CacheLockManager.withLock(key, fn, {expiryMs, maxWaitMs})` started at
`start`, over the observed lock cell `env` of that key, with the wrapped
computation `fn` modelled as `Except E T` (resolves or throws).  Mirrors
the source: wait for the lock (poll interval 100 ms), return `null` on
timeout; acquire; run `fn` and in all cases release the lock in the
`finally` block. -/
def withLock {E T : Type} (env : Int → Option CacheLock)
    (start expiryMs maxWaitMs : Int) (fn : Except E T) : WithLockRun E T :=
  match waitForLock env start maxWaitMs 100 with
  | .error tEnd => ⟨.nullTimeout, false, env tEnd⟩
  | .ok t =>
    let acq := acquireLockObs (env t) t expiryMs
    if ¬ acq.2 then ⟨.nullTimeout, false, acq.1⟩
    else
      match fn with
      | .ok r => ⟨.value r, true, none⟩   -- finally: releaseLock
      | .error e => ⟨.thrown e, true, none⟩ -- finally: releaseLock

/-- How `safeCacheOperation` finished: a value (the operation's result or
the fallback), a bare `null` (timeout with no fallback supplied), or a
rethrown error (operation threw and no fallback supplied). -/
inductive SCOResult (E T : Type) where
  | value (t : T)
  | nullValue
  | raised (e : E)
deriving DecidableEq, Repr

/-- The `safeCacheOperation(cacheKey, operation, {lockKey, expiryMs,
maxWaitMs, fallbackValue})` from src/lib/cacheLock.ts, over the observed
lock cell of the derived lock key: run `withLock`; if it returned `null`
and a fallback was supplied, return the fallback; if the operation threw
and a fallback was supplied, return the fallback, else rethrow.  The
second component reports whether the operation was executed. -/
def safeCacheOperation {E T : Type} (env : Int → Option CacheLock)
    (start expiryMs maxWaitMs : Int) (fallbackValue : Option T)
    (operation : Except E T) : SCOResult E T × Bool :=
  let w := withLock env start expiryMs maxWaitMs operation
  match w.result with
  | .nullTimeout =>
    match fallbackValue with
    | some fb => (.value fb, w.opRan)
    | none => (.nullValue, w.opRan)
  | .value t => (.value t, w.opRan)
  | .thrown e =>
    match fallbackValue with
    | some fb => (.value fb, w.opRan)
    | none => (.raised e, w.opRan)

/-! ### The receive page (src/app/receive/page.tsx) -/

/-- The client-side `Reply` record of the receive page. -/
structure ClientReply where
  id : Nat
  content : String
  timestamp : Int
  replier : String
deriving DecidableEq, Repr

/-- The client-side `BottleData` record of the receive page. -/
structure ClientBottle where
  id : Nat
  content : String
  timestamp : Int
  sender : String
  replies : List ClientReply
deriving DecidableEq, Repr

/-- The outcome of `checkReplyPermissions`: the `canReply` /
`replyBlockReason` state it sets. -/
structure ReplyPermission where
  canReply : Bool
  replyBlockReason : String
deriving DecidableEq, Repr

/-- The `checkReplyPermissions(bottleData)` from the receive page: block when
the bottle's sender is the connected address; otherwise, when the bottle
has replies, block exactly when the LAST reply (`replies[replies.length -
1]`) is by the connected address; otherwise allow. -/
def checkReplyPermissions (bottleData : ClientBottle) (address : String) :
    ReplyPermission :=
  if bottleData.sender = address then
    ⟨false, "不能回复自己的心声"⟩
  else
    match bottleData.replies.getLast? with
    | some lastReply =>
      if lastReply.replier = address then
        ⟨false, "等待其他探索者的回音..."⟩
      else ⟨true, ""⟩
    | none => ⟨true, ""⟩

/-- What one iteration of `findBottle` observes: `getRandomBottle()`
resolved with a bottle id and `readBottleData` then reported the bottle's
sender (`none` when it returned `null`), or `getRandomBottle` threw an
error, classified by the message tests of the catch block. -/
inductive FindAttempt where
  | got (bottleId : Nat) (senderOfBottle : Option String)
  | errNoBottles      -- message includes 'No bottles available'
  | errOwnBottle      -- message includes 'Cannot view your own bottle'
  | errUserRejected   -- message includes 'user rejected'
  | errOther (msg : String)
deriving DecidableEq, Repr

/-- The final user-visible outcome of a `findBottle` call chain. -/
inductive FindOutcome where
  | display (bottleId : Nat)   -- fetchBottleData ran and showed this bottle
  | toastMsg (msg : String)    -- a toast was shown and the search ended
  | ignored                    -- double-click guard: returned immediately
deriving DecidableEq, Repr

/-- The `findBottle(retryCount)` from the receive page, with the network
environment of attempt `k` given by `env k`.  Own-bottle detection
(`bottleData.sender === address`) triggers an automatic
`findBottle(retryCount + 1)` while `retryCount < 3`; after the third
retry the bottle is fetched and displayed anyway.  The catch block
retries the own-bottle error the same way.  The second component counts
the `getRandomBottle` probes performed. -/
def findBottle (connected stable searching : Bool) (address : String)
    (env : Nat → FindAttempt) (retryCount : Nat) : FindOutcome × Nat :=
  if ¬ (connected ∧ stable) then (.toastMsg "请先连接钱包并等待连接稳定", 0)
  else if searching ∧ retryCount = 0 then (.ignored, 0)
  else
    match env retryCount with
    | .got bottleId senderOfBottle =>
      if senderOfBottle = some address then
        if retryCount < 3 then
          let r := findBottle connected stable searching address env
            (retryCount + 1)
          (r.1, r.2 + 1)
        else (.display bottleId, 1)
      else (.display bottleId, 1)
    | .errNoBottles => (.toastMsg "🌊 海洋中还没有回音\n\n💡 成为第一个投递心声的人吧！", 1)
    | .errOwnBottle =>
      if retryCount < 3 then
        let r := findBottle connected stable searching address env
          (retryCount + 1)
        (r.1, r.2 + 1)
      else (.toastMsg "🎲 多次尝试后仍找到自己的瓶子，请手动再试一次！", 1)
    | .errUserRejected => (.toastMsg "操作已取消", 1)
    | .errOther msg => (.toastMsg ("寻找回音失败: " ++ msg), 1)
  termination_by 4 - retryCount

/-- The local UI state of the receive page that `handleSkip` touches. -/
structure ReceiveUI where
  currentBottle : Option ClientBottle
  reply : String
  showReplyForm : Bool
  isRemoving : Bool
deriving DecidableEq, Repr

/-- The `handleSkip` from the receive page, with the on-chain ledger threaded
through to make its frame explicit.  With no displayed bottle it returns
at once; otherwise it only clears local UI state after the removal
animation (`setCurrentBottle(null)`, `setShowReplyForm(false)`,
`setReply('')`, `setIsRemoving(false)`).  It performs no blockchain
transaction: the returned `WriteCall` list is empty and the ledger
argument is returned untouched (the hook's `skipBottle` is never
invoked). -/
def handleSkip {Ledger : Type} (ledger : Ledger) (ui : ReceiveUI) :
    Ledger × ReceiveUI × List WriteCall :=
  match ui.currentBottle with
  | none => (ledger, ui, [])
  | some _ => (ledger, ⟨none, "", false, false⟩, [])

/-! ### src/lib/dataCache.ts -/

/-- JavaScript `toLowerCase()` restricted to the ASCII range; Ethereum
address strings (`0x` plus 40 hex digits) contain only ASCII letters, on
which the restriction agrees with the full Unicode mapping. -/
def jsToLower (s : String) : String :=
  ⟨s.data.map
    (fun c => if 65 ≤ c.toNat ∧ c.toNat ≤ 90 then Char.ofNat (c.toNat + 32) else c)⟩

/-- A `BottleData` record from src/lib/dataCache.ts. -/
structure StoredBottle where
  id : Nat
  content : String
  timestamp : Int
  replyCount : Nat
  isActive : Bool
  sender : String
deriving DecidableEq, Repr

/-- A `ReplyData` record from src/lib/dataCache.ts. -/
structure StoredReply where
  id : Nat
  content : String
  timestamp : Int
  replier : String
deriving DecidableEq, Repr

/-- A `CachedBottleState` record from src/lib/dataCache.ts. -/
structure CachedBottleState where
  bottles : List StoredBottle
  replies : List (Nat × List StoredReply)
  canReplyTo : List (Nat × Bool)
  lastUpdated : Int
  userAddress : String
deriving DecidableEq, Repr

/-- The `CACHE_KEY_PREFIX` from src/lib/dataCache.ts (renamed: the source
identifier is not usable here). -/
def cacheKeyStem : String := "drift-bottle-data"

/-- The `CACHE_EXPIRY_TIME` from src/lib/dataCache.ts: 30 minutes in ms. -/
def CACHE_EXPIRY_TIME : Int := 1000 * 60 * 30

/-- The `getCacheKey(address)` from src/lib/dataCache.ts. -/
def getCacheKey (address : String) : String :=
  cacheKeyStem ++ "-" ++ jsToLower address

/-- The browser `localStorage`, holding already-parsed
`CachedBottleState` values (`JSON.parse ∘ JSON.stringify` round-trips the
plain records the app stores, so parsing is modelled as the identity). -/
abbrev LocalStorage := List (String × CachedBottleState)

/-- The `loadBottleDataFromCache(address)` evaluated at time `now`: look the
lowercased key up; on a miss return `null`; if the entry's age is over
`CACHE_EXPIRY_TIME` remove it and return `null`; if its `userAddress`
differs from the lowercased address return `null` (leaving the entry);
otherwise return it.  First component: storage afterwards. -/
def loadBottleDataFromCache (storage : LocalStorage) (address : String)
    (now : Int) : LocalStorage × Option CachedBottleState :=
  match jsMapGet storage (getCacheKey address) with
  | none => (storage, none)
  | some data =>
    if now - data.lastUpdated > CACHE_EXPIRY_TIME then
      (jsMapDelete storage (getCacheKey address), none)
    else if data.userAddress ≠ jsToLower address then (storage, none)
    else (storage, some data)

/-! ### The DriftBottle Solidity contract -/

/-- A contract `Bottle` struct; `content` is the string's UTF-8 byte
sequence (Solidity `bytes(content)`). -/
structure Bottle where
  id : Nat
  sender : String
  content : List Nat
  timestamp : Nat
  isActive : Bool
  replyCount : Nat
deriving DecidableEq, Repr

/-- A contract `Reply` struct. -/
structure ContractReply where
  bottleId : Nat
  replier : String
  content : List Nat
  timestamp : Nat
  replyToReplyId : Nat
deriving DecidableEq, Repr

/-- A contract `UserBottleState` struct. -/
structure UserBottleState where
  hasViewed : Bool
  hasReplied : Bool
  hasSkipped : Bool
deriving DecidableEq, Repr

/-- The zero-initialised `Bottle` a Solidity mapping yields for an
unset key. -/
def Bottle.zero : Bottle := ⟨0, "", [], 0, false, 0⟩

/-- The zero-initialised `UserBottleState`. -/
def UserBottleState.zero : UserBottleState := ⟨false, false, false⟩

/-- The storage of the DriftBottle contract.  Mappings are total
functions defaulting to zero values; `hasUserReplied` is keyed by the
`(user, bottleId)` pair (the source key is
`keccak256(abi.encodePacked(msg.sender, bottleId))`, injective on these
pairs). -/
structure DriftBottleState where
  bottleIdCounter : Nat
  replyIdCounter : Nat
  bottles : Nat → Bottle
  replies : Nat → ContractReply
  userBottles : String → List Nat
  userReplies : String → List Nat
  bottleReplies : Nat → List Nat
  userBottleStates : String → Nat → UserBottleState
  hasUserReplied : String → Nat → Bool
  activeBottleIds : List Nat
  activeBottleIndex : Nat → Nat

/-- The `bottleExists` modifier. -/
def bottleExists (s : DriftBottleState) (bottleId : Nat) : Prop :=
  0 < bottleId ∧ bottleId ≤ s.bottleIdCounter

instance (s : DriftBottleState) (bottleId : Nat) :
    Decidable (bottleExists s bottleId) := by
  unfold bottleExists; infer_instance

/-- The `sendBottle(content)` called by `sender` at `blockTimestamp`. -/
def sendBottle (s : DriftBottleState) (sender : String) (content : List Nat)
    (blockTimestamp : Nat) : Except String DriftBottleState :=
  if content.length = 0 then .error "Content cannot be empty"
  else if content.length > 1000 then .error "Content too long"
  else
    let bottleId := s.bottleIdCounter + 1
    .ok { s with
      bottleIdCounter := bottleId
      bottles := fun i => if i = bottleId then
        ⟨bottleId, sender, content, blockTimestamp, true, 0⟩ else s.bottles i
      userBottles := fun u => if u = sender then
        s.userBottles u ++ [bottleId] else s.userBottles u
      activeBottleIds := s.activeBottleIds ++ [bottleId]
      activeBottleIndex := fun i => if i = bottleId then
        s.activeBottleIds.length else s.activeBottleIndex i }

/-- The `replyToBottle(bottleId, content)` called by `sender` at
`blockTimestamp`, with every `require` in source order. -/
def replyToBottle (s : DriftBottleState) (sender : String) (bottleId : Nat)
    (content : List Nat) (blockTimestamp : Nat) :
    Except String DriftBottleState :=
  if ¬ bottleExists s bottleId then .error "Bottle does not exist"
  else if content.length = 0 then .error "Reply content cannot be empty"
  else if content.length > 1000 then .error "Reply content too long"
  else if ¬ (s.bottles bottleId).isActive then .error "Bottle is not active"
  else if (s.bottles bottleId).sender = sender then
    .error "Cannot reply to your own bottle"
  else if s.hasUserReplied sender bottleId then
    .error "Already replied to this bottle"
  else
    let replyId := s.replyIdCounter + 1
    .ok { s with
      replyIdCounter := replyId
      replies := fun i => if i = replyId then
        ⟨bottleId, sender, content, blockTimestamp, 0⟩ else s.replies i
      hasUserReplied := fun u b =>
        if u = sender ∧ b = bottleId then true else s.hasUserReplied u b
      userReplies := fun u => if u = sender then
        s.userReplies u ++ [replyId] else s.userReplies u
      bottleReplies := fun b => if b = bottleId then
        s.bottleReplies b ++ [replyId] else s.bottleReplies b
      bottles := fun i => if i = bottleId then
        { s.bottles i with replyCount := (s.bottles i).replyCount + 1 }
        else s.bottles i }

/-- The `replyToReply(replyId, content)` called by `sender` at
`blockTimestamp`. -/
def replyToReply (s : DriftBottleState) (sender : String) (replyId : Nat)
    (content : List Nat) (blockTimestamp : Nat) :
    Except String DriftBottleState :=
  if ¬ (0 < replyId ∧ replyId ≤ s.replyIdCounter) then
    .error "Reply does not exist"
  else if content.length = 0 then .error "Reply content cannot be empty"
  else if content.length > 1000 then .error "Reply content too long"
  else if (s.replies replyId).replier = sender then
    .error "Cannot reply to your own reply"
  else
    let bottleId := (s.replies replyId).bottleId
    if ¬ (s.bottles bottleId).isActive then .error "Bottle is not active"
    else
      let newReplyId := s.replyIdCounter + 1
      .ok { s with
        replyIdCounter := newReplyId
        replies := fun i => if i = newReplyId then
          ⟨bottleId, sender, content, blockTimestamp, replyId⟩
          else s.replies i
        userReplies := fun u => if u = sender then
          s.userReplies u ++ [newReplyId] else s.userReplies u
        bottleReplies := fun b => if b = bottleId then
          s.bottleReplies b ++ [newReplyId] else s.bottleReplies b
        bottles := fun i => if i = bottleId then
          { s.bottles i with replyCount := (s.bottles i).replyCount + 1 }
          else s.bottles i }

/-- The `skipBottle(bottleId)` called by `sender`. -/
def skipBottle (s : DriftBottleState) (sender : String) (bottleId : Nat) :
    Except String DriftBottleState :=
  if ¬ bottleExists s bottleId then .error "Bottle does not exist"
  else if ¬ (s.bottles bottleId).isActive then .error "Bottle is not active"
  else if (s.bottles bottleId).sender = sender then
    .error "Cannot skip your own bottle"
  else if s.hasUserReplied sender bottleId then
    .error "Cannot skip bottle you have replied to"
  else if (s.userBottleStates sender bottleId).hasSkipped then
    .error "Already skipped this bottle"
  else
    .ok { s with
      userBottleStates := fun u b =>
        if u = sender ∧ b = bottleId then
          { s.userBottleStates u b with hasSkipped := true }
        else s.userBottleStates u b }

/-- The `deactivateBottle(bottleId)` called by `sender`: flip `isActive` and
remove the id from `activeBottleIds` by swap-with-last-then-pop. -/
def deactivateBottle (s : DriftBottleState) (sender : String)
    (bottleId : Nat) : Except String DriftBottleState :=
  if ¬ bottleExists s bottleId then .error "Bottle does not exist"
  else if ¬ ((s.bottles bottleId).sender = sender) then
    .error "Only sender can deactivate"
  else
    let index := s.activeBottleIndex bottleId
    let lastBottleId := s.activeBottleIds.getLastD 0
    let swapped := s.activeBottleIds.set index lastBottleId
    .ok { s with
      bottles := fun i => if i = bottleId then
        { s.bottles i with isActive := false } else s.bottles i
      activeBottleIds := swapped.dropLast
      activeBottleIndex := fun i =>
        if i = bottleId then 0
        else if i = lastBottleId then index
        else s.activeBottleIndex i }

/-- A state-mutating transaction submitted to the contract. -/
inductive ContractTx where
  | send (sender : String) (content : List Nat) (timestamp : Nat)
  | reply (sender : String) (bottleId : Nat) (content : List Nat)
      (timestamp : Nat)
  | replyR (sender : String) (replyId : Nat) (content : List Nat)
      (timestamp : Nat)
  | skip (sender : String) (bottleId : Nat)
  | deactivate (sender : String) (bottleId : Nat)

/-- Commit one transaction: a reverted transaction leaves the state
unchanged. -/
def applyTx (s : DriftBottleState) : ContractTx → DriftBottleState
  | .send sender content ts => (sendBottle s sender content ts).toOption.getD s
  | .reply sender b content ts =>
    (replyToBottle s sender b content ts).toOption.getD s
  | .replyR sender r content ts =>
    (replyToReply s sender r content ts).toOption.getD s
  | .skip sender b => (skipBottle s sender b).toOption.getD s
  | .deactivate sender b => (deactivateBottle s sender b).toOption.getD s

/-- Commit a sequence of transactions in order. -/
def applyTxs (s : DriftBottleState) : List ContractTx → DriftBottleState
  | [] => s
  | tx :: rest => applyTxs (applyTx s tx) rest

/-! ## Theorems -/

/-- The `jsTrim` of the empty string is empty. -/
theorem jsTrim_nil : jsTrim [] = [] := rfl

/-- The `dropWhile jsWhitespace` is the identity on runs of the letter `a`
(code unit 97). -/
theorem dropWhile_ws_replicate97 (n : Nat) :
    List.dropWhile jsWhitespace (List.replicate n 97) =
      List.replicate n 97 := by
  cases n with
  | zero => rfl
  | succ m =>
    rw [List.replicate_succ, List.dropWhile_cons]
    norm_num [jsWhitespace]

/-- The `jsTrim` is the identity on runs of the letter `a`. -/
theorem jsTrim_replicate97 (n : Nat) :
    jsTrim (List.replicate n 97) = List.replicate n 97 := by
  unfold jsTrim
  rw [dropWhile_ws_replicate97, List.reverse_replicate,
    dropWhile_ws_replicate97, List.reverse_replicate]

/-- C1 counterexample: a string of 501 letters `a` has trimmed length 501,
within the claimed 1–1000 character band, yet `sanitizeBottleContent`
rejects it for its length (with the over-length reason), for the concrete
regex/purifier oracles.  This refutes the claim that content is rejected
exactly when the trimmed length is outside 1..1000. -/
theorem C1_cex :
    sanitizeBottleContent (fun _ => false) (fun _ => true) id
      (List.replicate 501 97) = .error .overLength ∧
    1 ≤ (jsTrim (List.replicate 501 97)).length ∧
    (jsTrim (List.replicate 501 97)).length ≤ 1000 := by
  refine ⟨?_, ?_, ?_⟩
  · unfold sanitizeBottleContent
    rw [if_neg (by simp), jsTrim_replicate97]
    norm_num [MAX_LENGTHS_content, List.length_replicate]
  · rw [jsTrim_replicate97, List.length_replicate]; omega
  · rw [jsTrim_replicate97, List.length_replicate]; omega

/-- C1 (amended): the client-side send validation caps content at
`MAX_LENGTHS.content = 500` characters, not 1000: for every choice of the
regex and purifier oracles, `sanitizeBottleContent` rejects for a length
reason (empty or over-length) exactly when the trimmed content is empty
or longer than 500 UTF-16 code units; every content whose trimmed length
is in 1..500 passes the content-length validation (any remaining
rejection is for a pattern reason, not length). -/
theorem C1_amended (dangerousTest patternOk : JSStr → Bool)
    (purify : JSStr → JSStr) (c : JSStr) :
    (sanitizeBottleContent dangerousTest patternOk purify c =
        .error .emptyContent ∨
     sanitizeBottleContent dangerousTest patternOk purify c =
        .error .overLength) ↔
    (jsTrim c = [] ∨ MAX_LENGTHS_content < (jsTrim c).length) := by
  unfold sanitizeBottleContent
  by_cases hc : c = []
  · simp [hc, jsTrim_nil]
  · simp only [if_neg hc]
    by_cases h0 : (jsTrim c).length = 0
    · simp [h0, List.length_eq_zero.mp h0]
    · simp only [if_neg h0]
      by_cases h5 : (jsTrim c).length > MAX_LENGTHS_content
      · simp [h5]
      · simp only [if_neg h5]
        have hne : jsTrim c ≠ [] := fun h => h0 (by simp [h])
        constructor
        · intro h
          rcases h with h | h <;> split_ifs at h <;> simp_all
        · intro h
          rcases h with h | h
          · exact absurd h hne
          · omega

/-- The freshly deployed contract state (all counters zero, all mappings
at their zero values, no active bottles). -/
def initialState : DriftBottleState :=
  ⟨0, 0, fun _ => Bottle.zero, fun _ => ⟨0, "", [], 0, 0⟩, fun _ => [],
    fun _ => [], fun _ => [], fun _ _ => UserBottleState.zero,
    fun _ _ => false, [], fun _ => 0⟩

/-- No committed transaction ever clears a `(user, bottleId)` entry of
`hasUserReplied`: the reply guard is monotone. -/
theorem hasUserReplied_mono_applyTx (s : DriftBottleState)
    (tx : ContractTx) (u : String) (b : Nat)
    (h : s.hasUserReplied u b = true) :
    (applyTx s tx).hasUserReplied u b = true := by
  cases tx with
  | send sender content ts =>
    unfold applyTx sendBottle
    dsimp only
    split_ifs <;> simp_all [Except.toOption]
  | reply sender bid content ts =>
    unfold applyTx replyToBottle
    dsimp only
    split_ifs <;> simp_all [Except.toOption]
  | replyR sender rid content ts =>
    unfold applyTx replyToReply
    dsimp only
    split_ifs <;> simp_all [Except.toOption]
  | skip sender bid =>
    unfold applyTx skipBottle
    dsimp only
    split_ifs <;> simp_all [Except.toOption]
  | deactivate sender bid =>
    unfold applyTx deactivateBottle
    dsimp only
    split_ifs <;> simp_all [Except.toOption]

/-- Guard monotonicity extended to transaction sequences. -/
theorem hasUserReplied_mono_applyTxs (s : DriftBottleState)
    (txs : List ContractTx) (u : String) (b : Nat)
    (h : s.hasUserReplied u b = true) :
    (applyTxs s txs).hasUserReplied u b = true := by
  induction txs generalizing s with
  | nil => exact h
  | cons tx rest ih =>
    exact ih _ (hasUserReplied_mono_applyTx s tx u b h)

/-- C2 counterexample: a bottle whose reply list is `[reply by 0xU, reply
by 0xW]`, viewed by the connected address `0xU`.  The user `0xU` has
already replied to the displayed bottle, yet `checkReplyPermissions`
leaves `canReply = true` because only the LAST reply is inspected —
refuting the claim that the client reply-permission check rejects
whenever the user has ever replied. -/
theorem C2_cex :
    (checkReplyPermissions
      ⟨1, "hello", 0, "0xS",
        [⟨1, "r1", 0, "0xU"⟩, ⟨2, "r2", 0, "0xW"⟩]⟩ "0xU").canReply = true ∧
    ([(⟨1, "r1", 0, "0xU"⟩ : ClientReply), ⟨2, "r2", 0, "0xW"⟩].any
      (fun r => r.replier = "0xU")) = true ∧
    "0xS" ≠ "0xU" := by
  refine ⟨rfl, by decide, by decide⟩

/-- C2 (amended): once a user has replied to a bottle, the CONTRACT
blocks any later direct reply by that user permanently — the guard is set
by a successful reply, survives any sequence of intervening transactions
(including other users' replies), and a guarded reply attempt that passes
the earlier preconditions reverts with the duplicate-reply reason.  The
CLIENT reply-permission check, however, rejects exactly when the bottle
is the user's own or the user's reply is the most recent one — not
whenever the user has ever replied. -/
theorem C2_amended :
    (∀ (s s' : DriftBottleState) (u : String) (b : Nat) (c : List Nat)
      (ts : Nat), replyToBottle s u b c ts = .ok s' →
        s'.hasUserReplied u b = true) ∧
    (∀ (s : DriftBottleState) (txs : List ContractTx) (u : String) (b : Nat),
      s.hasUserReplied u b = true →
        (applyTxs s txs).hasUserReplied u b = true) ∧
    (∀ (s : DriftBottleState) (u : String) (b : Nat) (c : List Nat)
      (ts : Nat), s.hasUserReplied u b = true → bottleExists s b →
        c.length ≠ 0 → c.length ≤ 1000 → (s.bottles b).isActive →
        (s.bottles b).sender ≠ u →
        replyToBottle s u b c ts = .error "Already replied to this bottle") ∧
    (∀ (bottleData : ClientBottle) (address : String),
      (checkReplyPermissions bottleData address).canReply = false ↔
        (bottleData.sender = address ∨
         ∃ lastReply, bottleData.replies.getLast? = some lastReply ∧
           lastReply.replier = address)) := by
  refine ⟨?_, ?_, ?_, ?_⟩
  · intro s s' u b c ts h
    unfold replyToBottle at h
    split_ifs at h
    simp_all
    subst h
    simp
  · exact fun s txs u b h => hasUserReplied_mono_applyTxs s txs u b h
  · intro s u b c ts hGuard hEx hLen0 hLen1000 hActive hOwn
    unfold replyToBottle
    split_ifs <;> simp_all
    omega
  · intro bottleData address
    unfold checkReplyPermissions
    split_ifs with hSender
    · simp [hSender]
    · cases hLast : bottleData.replies.getLast? with
      | none => simp [hLast, hSender]
      | some lastReply =>
        by_cases hRep : lastReply.replier = address
        · simp [hLast, hRep, hSender]
        · simp [hLast, hRep, hSender]

/-- The state after `0xS` sends the bottle `"h"` (bottle id 1). -/
def c2s1 : DriftBottleState := applyTx initialState (.send "0xS" [104] 0)

/-- The state after `0xU` then replies `"i"` to bottle 1. -/
def c2s2 : DriftBottleState := applyTx c2s1 (.reply "0xU" 1 [105] 1)

/-- Witness for the amended C2 theorem at concrete inputs: after `0xU`
replies to bottle 1, the guard is set and a second reply by `0xU`
reverts as a duplicate. -/
theorem C2_amended_witness :
    c2s2.hasUserReplied "0xU" 1 = true ∧
    replyToBottle c2s2 "0xU" 1 [106] 2 =
      .error "Already replied to this bottle" := by
  refine ⟨C2_amended.1 c2s1 c2s2 "0xU" 1 [105] 1 ?_,
    C2_amended.2.2.1 c2s2 "0xU" 1 [106] 2 ?_ ?_ ?_ ?_ ?_ ?_⟩
  · rfl
  · rfl
  · exact ⟨Nat.one_pos, by rfl⟩
  · decide
  · decide
  · rfl
  · decide

/-- If the key is observed locked at every poll instant inside the
default 5-second window, the wait loop times out (for any fuel and any
starting poll index). -/
theorem waitForLockGo_timeout (env : Int → Option CacheLock) (start : Int)
    (h : ∀ j : Nat, (j : Int) * 100 < 5000 →
      isLockedObs (env (start + j * 100)) (start + j * 100) = true) :
    ∀ (fuel k : Nat), ∃ t, waitForLockGo env start 5000 100 k fuel =
      .error t := by
  intro fuel
  induction fuel with
  | zero => exact fun k => ⟨_, rfl⟩
  | succ n ih =>
    intro k
    unfold waitForLockGo
    dsimp only
    by_cases hin : (start + (k : Int) * 100) - start < 5000
    · have hk : ((k : Int)) * 100 < 5000 := by omega
      rw [if_pos hin, h k hk]
      exact ih (k + 1)
    · rw [if_neg hin]
      exact ⟨_, rfl⟩

/-- If the key is observed free at some poll instant inside the window,
the wait loop (with enough fuel) succeeds. -/
theorem waitForLockGo_free (env : Int → Option CacheLock) (start : Int) :
    ∀ (fuel k : Nat),
      (∃ j : Nat, k ≤ j ∧ (j : Int) * 100 < 5000 ∧
        isLockedObs (env (start + j * 100)) (start + j * 100) = false) →
      51 ≤ k + fuel →
      ∃ t, waitForLockGo env start 5000 100 k fuel = .ok t := by
  intro fuel
  induction fuel with
  | zero =>
    intro k ⟨j, hkj, hj, _⟩ hfuel
    have : (j : Int) < 50 := by omega
    omega
  | succ n ih =>
    intro k ⟨j, hkj, hj, hfree⟩ hfuel
    unfold waitForLockGo
    dsimp only
    have hjlt : j < 50 := by
      have : (j : Int) < 50 := by omega
      exact_mod_cast this
    have hin : (start + (k : Int) * 100) - start < 5000 := by
      have : (k : Int) ≤ (j : Int) := by exact_mod_cast hkj
      omega
    rw [if_pos hin]
    cases hLk : isLockedObs (env (start + (k : Int) * 100))
        (start + (k : Int) * 100) with
    | false => exact ⟨_, rfl⟩
    | true =>
      have hkj' : k + 1 ≤ j := by
        rcases Nat.lt_or_ge k j with hlt | hge
        · omega
        · have : k = j := by omega
          rw [this] at hLk
          rw [hLk] at hfree
          cases hfree
      exact ih (k + 1) ⟨j, hkj', hj, hfree⟩ (by omega)

/-- A successful wait reports a poll instant at which the key was
observed free. -/
theorem waitForLockGo_ok_free (env : Int → Option CacheLock)
    (start maxW poll : Int) :
    ∀ (fuel k : Nat) (t : Int),
      waitForLockGo env start maxW poll k fuel = .ok t →
      isLockedObs (env t) t = false := by
  intro fuel
  induction fuel with
  | zero => intro k t h; cases h
  | succ n ih =>
    intro k t h
    unfold waitForLockGo at h
    dsimp only at h
    by_cases hin : (start + (k : Int) * poll) - start < maxW
    · rw [if_pos hin] at h
      cases hLk : isLockedObs (env (start + (k : Int) * poll))
          (start + (k : Int) * poll) with
      | false =>
        rw [hLk] at h
        cases h
        exact hLk
      | true =>
        rw [hLk] at h
        exact ih (k + 1) t h
    · rw [if_neg hin] at h
      cases h

/-- Acquisition against a cell observed free always succeeds. -/
theorem acquireLockObs_of_free (cell : Option CacheLock) (now e : Int)
    (h : isLockedObs cell now = false) :
    (acquireLockObs cell now e).2 = true := by
  cases cell with
  | none => rfl
  | some l =>
    have h' : l.expiry ≤ now := by
      unfold isLockedObs at h
      simpa using h
    simp [acquireLockObs, show ¬ (l.expiry > now) from not_lt.mpr h']

/-- C3: `safeCacheOperation` with the default 5-second wait (100 ms
polls) and a caller-supplied fallback.  If the operation's lock key is
observed locked at every poll of the window, the operation is NOT
executed and the fallback is returned; if the key is observed free at
some poll of the window, the operation IS executed (under the freshly
acquired lock). -/
theorem C3_safeCacheOperation_fallback {E T : Type}
    (env : Int → Option CacheLock) (start : Int) (fb : T)
    (fallback : Option T) (operation : Except E T) :
    ((∀ j : Nat, (j : Int) * 100 < 5000 →
        isLockedObs (env (start + j * 100)) (start + j * 100) = true) →
      safeCacheOperation env start 30000 5000 (some fb) operation =
        (.value fb, false)) ∧
    ((∃ j : Nat, (j : Int) * 100 < 5000 ∧
        isLockedObs (env (start + j * 100)) (start + j * 100) = false) →
      (safeCacheOperation env start 30000 5000 fallback operation).2 =
        true) := by
  constructor
  · intro h
    obtain ⟨t, ht⟩ := waitForLockGo_timeout env start h
      ((5000 : Int).toNat / (100 : Int).toNat + 2) 0
    unfold safeCacheOperation withLock waitForLock
    rw [ht]
  · intro ⟨j, hj, hfree⟩
    obtain ⟨t, ht⟩ := waitForLockGo_free env start
      ((5000 : Int).toNat / (100 : Int).toNat + 2) 0
      ⟨j, Nat.zero_le j, hj, hfree⟩ (by decide)
    have hfreet := waitForLockGo_ok_free env start 5000 100 _ 0 t ht
    have hacq := acquireLockObs_of_free (env t) t 30000 hfreet
    unfold safeCacheOperation withLock waitForLock
    rw [ht]
    dsimp only
    rw [if_neg (by simp [hacq])]
    cases operation <;> cases fallback <;> rfl

/-- Witness for C3 at concrete inputs: under a lock that never expires
the fallback `3` comes back with the operation unexecuted; with no lock
at all the operation runs. -/
theorem C3_safeCacheOperation_fallback_witness :
    safeCacheOperation (fun _ => some ⟨0, 1000000000⟩) 0 30000 5000
      (some (3 : Nat)) ((Except.ok 7 : Except Unit Nat)) = (.value 3, false) ∧
    (safeCacheOperation (fun _ => (none : Option CacheLock)) 0 30000 5000
      (some (3 : Nat)) ((Except.ok 7 : Except Unit Nat))).2 = true := by
  constructor
  · refine (C3_safeCacheOperation_fallback (fun _ => some ⟨0, 1000000000⟩)
      0 3 (some 3) (Except.ok 7)).1 ?_
    intro j hj
    simp only [isLockedObs, decide_eq_true_eq]
    omega
  · exact (C3_safeCacheOperation_fallback (fun _ => none) 0 3 (some 3)
      (Except.ok 7)).2 ⟨0, by norm_num, rfl⟩

/-- Looking up the key just written by `jsMapSet` yields the new value. -/
theorem jsMapGet_jsMapSet_self {V : Type} (m : List (String × V))
    (k : String) (v : V) : jsMapGet (jsMapSet m k v) k = some v := by
  unfold jsMapSet
  by_cases h : jsMapHas m k
  · rw [if_pos h]
    unfold jsMapHas at h
    induction m with
    | nil => simp at h
    | cons p rest ih =>
      by_cases hp : p.1 = k
      · simp [jsMapGet, List.find?_cons, hp]
      · simp only [List.any_cons, Bool.or_eq_true, decide_eq_true_eq] at h
        have h' := h.resolve_left hp
        simp only [List.map_cons, if_neg hp]
        simpa [jsMapGet, List.find?_cons, hp] using ih h'
  · rw [if_neg h]
    unfold jsMapHas at h
    induction m with
    | nil => simp [jsMapGet]
    | cons p rest ih =>
      simp only [List.any_cons, Bool.or_eq_true, not_or] at h
      have hp : ¬ p.1 = k := by simpa using h.1
      simpa [jsMapGet, List.find?_cons, hp] using ih (by simpa using h.2)

/-- C4: locks cannot outlive their expiry, and `withLock` always cleans
up.  (i) For any table entry whose expiry has passed, `isLocked` reports
the key free and a fresh `acquireLock` succeeds even though the holder
never released.  (ii) A successful `acquireLock` installs a lock whose
expiry is `now + expiryMs` — every lock is time-boxed.  (iii) Whenever
`withLock` actually entered its protected section (the wait succeeded),
the key's lock cell is `none` when it returns, both when the wrapped
function resolves and when it throws. -/
theorem C4_lock_expiry_release :
    (∀ (locks : LockTable) (key : String) (now expiryMs : Int)
      (l : CacheLock), jsMapGet locks key = some l → l.expiry ≤ now →
        (isLocked locks key now).2 = false ∧
        (acquireLock locks key now expiryMs).2 = true) ∧
    (∀ (locks : LockTable) (key : String) (now expiryMs : Int),
      (acquireLock locks key now expiryMs).2 = true →
        jsMapGet (acquireLock locks key now expiryMs).1 key =
          some ⟨now, now + expiryMs⟩) ∧
    (∀ (E T : Type) (env : Int → Option CacheLock)
      (start expiryMs maxW : Int) (fn : Except E T) (t : Int),
      waitForLock env start maxW 100 = .ok t →
        (withLock env start expiryMs maxW fn).finalCell = none) := by
  refine ⟨?_, ?_, ?_⟩
  · intro locks key now expiryMs l hGet hExp
    constructor
    · unfold isLocked
      rw [hGet]
      dsimp only
      rw [if_pos hExp]
    · unfold acquireLock
      rw [hGet]
      dsimp only
      rw [if_neg (not_lt.mpr hExp)]
  · intro locks key now expiryMs hAcq
    unfold acquireLock at hAcq ⊢
    cases hGet : jsMapGet locks key with
    | none =>
      dsimp only
      exact jsMapGet_jsMapSet_self locks key _
    | some l =>
      rw [hGet] at hAcq
      dsimp only at hAcq ⊢
      by_cases hExp : l.expiry > now
      · rw [if_pos hExp] at hAcq
        exact absurd hAcq (by simp)
      · rw [if_neg hExp]
        exact jsMapGet_jsMapSet_self locks key _
  · intro E T env start expiryMs maxW fn t hWait
    have hfree : isLockedObs (env t) t = false := by
      unfold waitForLock at hWait
      exact waitForLockGo_ok_free env start maxW 100 _ 0 t hWait
    have hacq := acquireLockObs_of_free (env t) t expiryMs hfree
    unfold withLock
    rw [hWait]
    dsimp only
    rw [if_neg (by simp [hacq])]
    cases fn <;> rfl

/-- Witness for C4 at concrete inputs: a lock with expiry 10 observed at
time 10 is free and re-acquirable; the fresh acquisition is time-boxed to
`10 + 30000`; a `withLock` over a free key releases the key by the time
it returns, for a throwing body as well. -/
theorem C4_lock_expiry_release_witness :
    (isLocked [("k", (⟨0, 10⟩ : CacheLock))] "k" 10).2 = false ∧
    (acquireLock [("k", (⟨0, 10⟩ : CacheLock))] "k" 10 30000).2 = true ∧
    jsMapGet (acquireLock [("k", (⟨0, 10⟩ : CacheLock))] "k" 10 30000).1 "k" =
      some ⟨10, 10 + 30000⟩ ∧
    (withLock (fun _ => (none : Option CacheLock)) 0 30000 5000
      (Except.error (3 : Nat) : Except Nat Nat)).finalCell = none := by
  have h1 := (C4_lock_expiry_release.1 [("k", (⟨0, 10⟩ : CacheLock))] "k"
    10 30000 ⟨0, 10⟩ (by rfl) (by norm_num))
  refine ⟨h1.1, h1.2, ?_, ?_⟩
  · exact C4_lock_expiry_release.2.1 [("k", (⟨0, 10⟩ : CacheLock))] "k"
      10 30000 h1.2
  · exact C4_lock_expiry_release.2.2 Nat Nat (fun _ => none) 0 30000 5000
      (Except.error 3) 0 (by rfl)

/-- Probe-count bound for `findBottle`: from retry depth `rc` with
`3 ≤ rc + m`, at most `m + 1` probes happen. -/
theorem findBottle_probes_le (c s se : Bool) (a : String)
    (env : Nat → FindAttempt) :
    ∀ (m rc : Nat), 3 ≤ rc + m → (findBottle c s se a env rc).2 ≤ m + 1 := by
  intro m
  induction m with
  | zero =>
    intro rc h3
    unfold findBottle
    cases henv : env rc <;> dsimp only <;> split_ifs <;> simp_all <;> omega
  | succ m ih =>
    intro rc h3
    have H := ih (rc + 1) (by omega)
    unfold findBottle
    cases henv : env rc <;> dsimp only <;> split_ifs <;> simp_all

/-- One own-bottle probe below the retry cap steps `findBottle` to the
next retry, adding one probe. -/
theorem findBottle_step_own (a : String) (env : Nat → FindAttempt)
    (rc i : Nat) (hrc : rc < 3) (henv : env rc = .got i (some a)) :
    findBottle true true false a env rc =
      ((findBottle true true false a env (rc + 1)).1,
        (findBottle true true false a env (rc + 1)).2 + 1) := by
  conv_lhs => unfold findBottle
  rw [henv]
  simp [hrc]

/-- A probe returning someone else's bottle (or no data) is displayed at
once. -/
theorem findBottle_display_other (a : String) (env : Nat → FindAttempt)
    (rc i : Nat) (so : Option String) (henv : env rc = .got i so)
    (hso : so ≠ some a) :
    findBottle true true false a env rc = (.display i, 1) := by
  unfold findBottle
  rw [henv]
  simp [hso]

/-- At retry depth 3 even the caller's own bottle is displayed. -/
theorem findBottle_display_own3 (a : String) (env : Nat → FindAttempt)
    (i : Nat) (henv : env 3 = .got i (some a)) :
    findBottle true true false a env 3 = (.display i, 1) := by
  unfold findBottle
  rw [henv]
  simp

/-- If probes `rc ≤ j < rc + k` all return the caller's own bottle and
probe `rc + k` returns another sender, the run from depth `rc` displays
that bottle after `k + 1` probes. -/
theorem findBottle_first_other (a : String) (env : Nat → FindAttempt)
    (id : Nat) (so : Option String) (hso : so ≠ some a) :
    ∀ (k rc : Nat), rc + k ≤ 3 →
      (∀ j, rc ≤ j → j < rc + k → ∃ i, env j = .got i (some a)) →
      env (rc + k) = .got id so →
      findBottle true true false a env rc = (.display id, k + 1) := by
  intro k
  induction k with
  | zero =>
    intro rc _ _ henv
    exact findBottle_display_other a env rc id so henv hso
  | succ k ih =>
    intro rc hle hpre henv
    obtain ⟨i, hi⟩ := hpre rc (le_refl rc) (by omega)
    rw [findBottle_step_own a env rc i (by omega) hi]
    have hrec := ih (rc + 1) (by omega)
      (fun j hj1 hj2 => hpre j (by omega) (by omega))
      (by rw [show rc + 1 + k = rc + (k + 1) by omega]; exact henv)
    rw [hrec]

/-- C5: the own-bottle re-roll of `findBottle`.  (i) A user-initiated
search performs at most 4 probes (the initial one plus 3 retries).
(ii) If every probe up to depth 3 returns a bottle sent by the caller,
the search retries exactly 3 times and then fetches and displays the
bottle of the final probe anyway.  (iii) If the probes below `k ≤ 3`
return own bottles and probe `k` returns a bottle with a different (or
absent) sender, that bottle is displayed after `k + 1` probes. -/
theorem C5_findBottle_retry :
    (∀ (connected stable searching : Bool) (address : String)
      (env : Nat → FindAttempt),
      (findBottle connected stable searching address env 0).2 ≤ 4) ∧
    (∀ (address : String) (env : Nat → FindAttempt) (bottleIds : Nat → Nat),
      (∀ k, k ≤ 3 → env k = .got (bottleIds k) (some address)) →
      findBottle true true false address env 0 =
        (.display (bottleIds 3), 4)) ∧
    (∀ (address : String) (env : Nat → FindAttempt) (k bottleId : Nat)
      (senderOfBottle : Option String), k ≤ 3 →
      (∀ j, j < k → ∃ i, env j = .got i (some address)) →
      env k = .got bottleId senderOfBottle →
      senderOfBottle ≠ some address →
      findBottle true true false address env 0 =
        (.display bottleId, k + 1)) := by
  refine ⟨?_, ?_, ?_⟩
  · intro c s se a env
    exact findBottle_probes_le c s se a env 3 0 (by omega)
  · intro a env ids h
    rw [findBottle_step_own a env 0 (ids 0) (by omega) (h 0 (by omega)),
      findBottle_step_own a env 1 (ids 1) (by omega) (h 1 (by omega)),
      findBottle_step_own a env 2 (ids 2) (by omega) (h 2 (by omega)),
      findBottle_display_own3 a env (ids 3) (h 3 (by omega))]
  · intro a env k bottleId so hk hpre henv hso
    exact findBottle_first_other a env bottleId so hso k 0 (by omega)
      (fun j hj1 hj2 => hpre j (by omega)) (by simpa using henv)

/-- Witness for C5 at concrete inputs: an environment returning only the
caller's own bottles displays the depth-3 bottle (id 13) after 4 probes;
an environment whose second probe is someone else's bottle displays it
after 2 probes. -/
theorem C5_findBottle_retry_witness :
    findBottle true true false "0xME"
      (fun k => .got (k + 10) (some "0xME")) 0 = (.display 13, 4) ∧
    findBottle true true false "0xME"
      (fun k => if k = 0 then .got 5 (some "0xME")
        else .got 7 (some "0xOTHER")) 0 = (.display 7, 2) := by
  constructor
  · exact C5_findBottle_retry.2.1 "0xME"
      (fun k => .got (k + 10) (some "0xME")) (fun k => k + 10)
      (fun k _ => rfl)
  · refine C5_findBottle_retry.2.2 "0xME" _ 1 7 (some "0xOTHER")
      (by omega) ?_ ?_ ?_
    · intro j hj
      have : j = 0 := by omega
      exact ⟨5, by simp [this]⟩
    · rfl
    · simp

/-- C6: the receive flow's skip is purely local.  For every ledger and
every UI state, `handleSkip` issues no `writeContract` call (in
particular it never invokes the contract's `skipBottle`, even though the
hook exposes one) and leaves the ledger untouched; and whenever a bottle
is displayed, it only clears the local UI state: the shown bottle, the
reply form and the reply draft. -/
theorem C6_handleSkip_frame :
    (∀ (Ledger : Type) (ledger : Ledger) (ui : ReceiveUI),
      (handleSkip ledger ui).1 = ledger ∧ (handleSkip ledger ui).2.2 = []) ∧
    (∀ (Ledger : Type) (ledger : Ledger) (ui : ReceiveUI) (b : ClientBottle),
      (handleSkip ledger { ui with currentBottle := some b }).2.1 =
        ⟨none, "", false, false⟩) := by
  constructor
  · intro Ledger ledger ui
    cases h : ui.currentBottle <;> simp [handleSkip, h]
  · intro Ledger ledger ui b
    rfl

/-- C7 counterexample: an entry saved for `0xAB` exactly 30 minutes ago
(age = `CACHE_EXPIRY_TIME`, not LESS than 30 minutes) is still returned
by `loadBottleDataFromCache`, refuting the claim that a cached state
comes back only when it is less than 30 minutes old. -/
theorem C7_cex :
    (loadBottleDataFromCache
        [("drift-bottle-data-0xab",
          (⟨[], [], [], 0, "0xab"⟩ : CachedBottleState))] "0xAB" 1800000).2 =
      some ⟨[], [], [], 0, "0xab"⟩ ∧
    ¬ ((1800000 : Int) - 0 < CACHE_EXPIRY_TIME) := by
  exact ⟨by decide, by decide⟩

/-- C7 (amended): `loadBottleDataFromCache(address)` returns a cached
state exactly when the entry under the lowercased key exists, is at MOST
30 minutes old (`age ≤ CACHE_EXPIRY_TIME`; the code drops it only when
`age > CACHE_EXPIRY_TIME`) and was saved for the same address compared
case-insensitively; an entry older than 30 minutes is removed from
storage with `null` returned; an entry recorded for a different address
yields `null` and is left in place. -/
theorem C7_loadBottleDataFromCache (storage : LocalStorage)
    (address : String) (now : Int) :
    (∀ d, (loadBottleDataFromCache storage address now).2 = some d ↔
      (jsMapGet storage (getCacheKey address) = some d ∧
       now - d.lastUpdated ≤ CACHE_EXPIRY_TIME ∧
       d.userAddress = jsToLower address)) ∧
    (∀ d, jsMapGet storage (getCacheKey address) = some d →
      now - d.lastUpdated > CACHE_EXPIRY_TIME →
      (loadBottleDataFromCache storage address now).1 =
        jsMapDelete storage (getCacheKey address) ∧
      (loadBottleDataFromCache storage address now).2 = none) ∧
    (∀ d, jsMapGet storage (getCacheKey address) = some d →
      d.userAddress ≠ jsToLower address →
      now - d.lastUpdated ≤ CACHE_EXPIRY_TIME →
      (loadBottleDataFromCache storage address now).2 = none ∧
      (loadBottleDataFromCache storage address now).1 = storage) := by
  refine ⟨?_, ?_, ?_⟩
  · intro d
    unfold loadBottleDataFromCache
    cases hGet : jsMapGet storage (getCacheKey address) with
    | none => simp [hGet]
    | some e =>
      dsimp only
      split_ifs with hAge hAddr
      · simp only [Option.some.injEq]
        constructor
        · intro h; cases h
        · rintro ⟨he, hle, _⟩
          cases he
          omega
      · simp only [Option.some.injEq]
        constructor
        · intro h; cases h
        · rintro ⟨he, _, haddr⟩
          cases he
          exact absurd haddr hAddr
      · simp only [Option.some.injEq]
        constructor
        · intro h
          subst h
          exact ⟨rfl, by omega, not_not.mp hAddr⟩
        · rintro ⟨he, _, _⟩
          exact he
  · intro d hGet hAge
    unfold loadBottleDataFromCache
    rw [hGet]
    dsimp only
    rw [if_pos hAge]
    exact ⟨rfl, rfl⟩
  · intro d hGet hAddr hFresh
    unfold loadBottleDataFromCache
    rw [hGet]
    dsimp only
    rw [if_neg (by omega), if_pos hAddr]
    exact ⟨rfl, rfl⟩

/-- Witness for the amended C7 at concrete inputs: a 1 ms old entry for
the same address is returned; an entry 1 ms past the 30-minute expiry
yields `null`; a fresh entry recorded for a different address yields
`null`. -/
theorem C7_loadBottleDataFromCache_witness :
    (loadBottleDataFromCache
      [("drift-bottle-data-0xab",
        (⟨[], [], [], 1000000, "0xab"⟩ : CachedBottleState))]
      "0xAB" 1000001).2 = some ⟨[], [], [], 1000000, "0xab"⟩ ∧
    (loadBottleDataFromCache
      [("drift-bottle-data-0xab",
        (⟨[], [], [], 0, "0xab"⟩ : CachedBottleState))]
      "0xAB" 1800001).2 = none ∧
    (loadBottleDataFromCache
      [("drift-bottle-data-0xab",
        (⟨[], [], [], 0, "0xcd"⟩ : CachedBottleState))]
      "0xAB" 100).2 = none := by
  refine ⟨?_, ?_, ?_⟩
  · exact ((C7_loadBottleDataFromCache
      [("drift-bottle-data-0xab", ⟨[], [], [], 1000000, "0xab"⟩)]
      "0xAB" 1000001).1 ⟨[], [], [], 1000000, "0xab"⟩).mpr
      ⟨by decide, by decide, by decide⟩
  · exact ((C7_loadBottleDataFromCache
      [("drift-bottle-data-0xab", ⟨[], [], [], 0, "0xab"⟩)]
      "0xAB" 1800001).2.1 ⟨[], [], [], 0, "0xab"⟩ (by decide) (by decide)).2
  · exact ((C7_loadBottleDataFromCache
      [("drift-bottle-data-0xab", ⟨[], [], [], 0, "0xcd"⟩)]
      "0xAB" 100).2.2 ⟨[], [], [], 0, "0xcd"⟩ (by decide) (by decide)
      (by decide)).1

/-- Attempt bound for the fetch loop: from retry depth `rc` with
`3 ≤ rc + m`, at most `m + 1` attempts happen. -/
theorem readBottleDataFetch_attempts_le {α : Type}
    (attempt : Nat → ReadAttempt α) :
    ∀ (m rc : Nat), 3 ≤ rc + m →
      (readBottleDataFetch attempt rc).attemptsUsed ≤ m + 1 := by
  intro m
  induction m with
  | zero =>
    intro rc h3
    unfold readBottleDataFetch
    cases henv : attempt rc with
    | ok d => simp
    | err nf net =>
      dsimp only
      split_ifs with h1 h2
      · simp
      · exact absurd h2.1 (by omega)
      · simp
  | succ m ih =>
    intro rc h3
    have H := ih (rc + 1) (by omega)
    unfold readBottleDataFetch
    cases henv : attempt rc with
    | ok d => simp
    | err nf net =>
      dsimp only
      split_ifs with h1 h2
      · simp
      · dsimp only
        omega
      · simp

/-- A network-classified error below the retry cap steps the fetch loop
to the next retry, recording the backoff delay
`min(2^retryCount * 1000, 8000)`. -/
theorem readBottleDataFetch_step_network {α : Type}
    (attempt : Nat → ReadAttempt α) (rc : Nat) (hrc : rc < 3)
    (henv : attempt rc = .err false true) :
    readBottleDataFetch attempt rc =
      ⟨(readBottleDataFetch attempt (rc + 1)).value,
        (readBottleDataFetch attempt (rc + 1)).attemptsUsed + 1,
        min ((2 : Int) ^ rc * 1000) 8000 ::
          (readBottleDataFetch attempt (rc + 1)).delays⟩ := by
  conv_lhs => unfold readBottleDataFetch
  rw [henv]
  simp [hrc]

/-- C8: the retry loop of `readBottleData`.  (i) Any call performs at
most 4 `readContract` attempts (the initial one plus 3 retries), so every
call terminates after a bounded number of attempts.  (ii) An error not
classified as network/timeout (or one matching the not-found patterns)
stops the loop at once with `null` — retries happen only on
network-classified errors.  (iii) If every attempt up to depth 3 fails
with a network error, the loop makes exactly 4 attempts with backoff
delays 1 s, 2 s, 4 s (each `min(2^k s, 8 s)`) and returns `null`.
(iv) A network error followed by a success returns the fetched value
after one 1-second backoff. -/
theorem C8_readBottleData_retry {α : Type} :
    (∀ (validId hasContract connected stable : Bool)
      (cached : Option (CacheEntry α)) (now : Int)
      (attempt : Nat → ReadAttempt α) (rc : Nat),
      (readBottleData validId hasContract connected stable cached now
        attempt rc).attemptsUsed ≤ 4) ∧
    (∀ (attempt : Nat → ReadAttempt α) (rc : Nat) (nf net : Bool),
      attempt rc = .err nf net → (nf = true ∨ net = false) →
      readBottleDataFetch attempt rc = ⟨none, 1, []⟩) ∧
    (∀ attempt : Nat → ReadAttempt α,
      (∀ k, k ≤ 3 → attempt k = .err false true) →
      readBottleDataFetch attempt 0 =
        ⟨none, 4, [1000, 2000, 4000]⟩) ∧
    (∀ (attempt : Nat → ReadAttempt α) (d : α),
      attempt 0 = .err false true → attempt 1 = .ok d →
      readBottleDataFetch attempt 0 = ⟨some d, 2, [1000]⟩) := by
  refine ⟨?_, ?_, ?_, ?_⟩
  · intro validId hasContract connected stable cached now attempt rc
    have Hf := readBottleDataFetch_attempts_le attempt 3 rc (by omega)
    unfold readBottleData
    cases cached with
    | none =>
      split_ifs <;> try simp
      exact Hf
    | some c =>
      dsimp only
      split_ifs <;> try simp
      exact Hf
  · intro attempt rc nf net henv hstop
    unfold readBottleDataFetch
    rw [henv]
    dsimp only
    rcases hstop with h | h
    · rw [h]
      simp
    · rw [h]
      rcases Bool.eq_false_or_eq_true nf with hnf | hnf <;> simp [hnf]
  · intro attempt h
    rw [readBottleDataFetch_step_network attempt 0 (by omega) (h 0 (by omega)),
      readBottleDataFetch_step_network attempt 1 (by omega) (h 1 (by omega)),
      readBottleDataFetch_step_network attempt 2 (by omega) (h 2 (by omega))]
    have h3 : readBottleDataFetch attempt 3 = ⟨none, 1, []⟩ := by
      unfold readBottleDataFetch
      rw [h 3 (by omega)]
      simp
    rw [h3]
    norm_num
  · intro attempt d h0 h1
    rw [readBottleDataFetch_step_network attempt 0 (by omega) h0]
    have hs : readBottleDataFetch attempt 1 = ⟨some d, 1, []⟩ := by
      unfold readBottleDataFetch
      rw [h1]
    rw [hs]
    norm_num

/-- Witness for C8 at concrete inputs: an all-network-error environment
produces 4 attempts, delays 1s/2s/4s and `null`; a not-found error stops
at one attempt; one network error then success returns the value after a
1-second backoff; the attempt bound holds on the first environment. -/
theorem C8_readBottleData_retry_witness :
    readBottleDataFetch (fun _ => ReadAttempt.err (α := Nat) false true) 0 =
      ⟨none, 4, [1000, 2000, 4000]⟩ ∧
    readBottleDataFetch (fun _ => ReadAttempt.err (α := Nat) true false) 0 =
      ⟨none, 1, []⟩ ∧
    readBottleDataFetch
      (fun k => if k = 0 then ReadAttempt.err (α := Nat) false true
        else ReadAttempt.ok 42) 0 = ⟨some 42, 2, [1000]⟩ ∧
    (readBottleData true true true true (none : Option (CacheEntry Nat)) 0
      (fun _ => ReadAttempt.err false true) 0).attemptsUsed ≤ 4 := by
  refine ⟨?_, ?_, ?_, ?_⟩
  · exact C8_readBottleData_retry.2.2.1 _ (fun k _ => rfl)
  · exact C8_readBottleData_retry.2.1 _ 0 true false rfl (Or.inl rfl)
  · exact C8_readBottleData_retry.2.2.2 _ 42 rfl rfl
  · exact C8_readBottleData_retry.1 true true true true none 0 _ 0

/-- The `RateLimiter.isAllowed` denies exactly when at least `maxAttempts`
recorded attempts still fall inside the rolling window. -/
theorem isAllowed_false_iff (attempts : LimiterMap) (identifier : String)
    (maxAttempts : Nat) (windowMs now : Int) :
    (isAllowed attempts identifier maxAttempts windowMs now).2 = false ↔
      maxAttempts ≤ (((jsMapGet attempts identifier).getD []).filter
        (fun t => t > now - windowMs)).length := by
  unfold isAllowed
  dsimp only
  split_ifs with h
  · simp [h]
  · simp [h]

/-- C9: the client-side per-address rate limits guard every ledger write
of the hook.  (i) `isAllowed` denies exactly when the identifier already
has `maxAttempts` attempts inside the rolling window.  (ii)–(iv) With the
wallet connected and the contract configured (and, for reply/skip, a
valid bottle id), a call whose limiter key (`address`, `address_reply`,
`address_skip`) already holds 5 / 10 / 20 attempts in the rolling
60-second window throws the rate-limit error with NO `writeContract`
call, while a call below its limit is never rejected by the limiter. -/
theorem C9_rate_limits :
    (∀ (attempts : LimiterMap) (identifier : String) (maxAttempts : Nat)
      (windowMs now : Int),
      (isAllowed attempts identifier maxAttempts windowMs now).2 = false ↔
        maxAttempts ≤ (((jsMapGet attempts identifier).getD []).filter
          (fun t => t > now - windowMs)).length) ∧
    (∀ (lim : LimiterMap) (address : String) (now : Int)
      (dangerousTest patternOk : JSStr → Bool) (purify : JSStr → JSStr)
      (content : JSStr),
      (5 ≤ (((jsMapGet lim address).getD []).filter
          (fun t => t > now - 60000)).length →
        hookSendBottle true true true lim (some address) now
          dangerousTest patternOk purify content =
          ((isAllowed lim address 5 60000 now).1, .error .rateLimited)) ∧
      (¬ 5 ≤ (((jsMapGet lim address).getD []).filter
          (fun t => t > now - 60000)).length →
        (hookSendBottle true true true lim (some address) now
          dangerousTest patternOk purify content).2 ≠
            .error .rateLimited)) ∧
    (∀ (lim : LimiterMap) (address : String) (now : Int) (bottleId : Int)
      (dangerousTest patternOk : JSStr → Bool) (purify : JSStr → JSStr)
      (content : JSStr), validateBottleId bottleId = true →
      (10 ≤ (((jsMapGet lim (address ++ "_reply")).getD []).filter
          (fun t => t > now - 60000)).length →
        hookReplyToBottle true true true lim (some address) now bottleId
          dangerousTest patternOk purify content =
          ((isAllowed lim (address ++ "_reply") 10 60000 now).1,
            .error .rateLimited)) ∧
      (¬ 10 ≤ (((jsMapGet lim (address ++ "_reply")).getD []).filter
          (fun t => t > now - 60000)).length →
        (hookReplyToBottle true true true lim (some address) now bottleId
          dangerousTest patternOk purify content).2 ≠
            .error .rateLimited)) ∧
    (∀ (lim : LimiterMap) (address : String) (now : Int) (bottleId : Int),
      validateBottleId bottleId = true →
      (20 ≤ (((jsMapGet lim (address ++ "_skip")).getD []).filter
          (fun t => t > now - 60000)).length →
        hookSkipBottle true true true lim (some address) now bottleId =
          ((isAllowed lim (address ++ "_skip") 20 60000 now).1,
            .error .rateLimited)) ∧
      (¬ 20 ≤ (((jsMapGet lim (address ++ "_skip")).getD []).filter
          (fun t => t > now - 60000)).length →
        (hookSkipBottle true true true lim (some address) now
          bottleId).2 ≠ .error .rateLimited)) := by
  refine ⟨isAllowed_false_iff, ?_, ?_, ?_⟩
  · intro lim address now dangerousTest patternOk purify content
    constructor
    · intro h
      have hfalse : (isAllowed lim address 5 60000 now).2 = false :=
        (isAllowed_false_iff lim address 5 60000 now).mpr h
      unfold hookSendBottle
      rw [if_neg (by simp), if_neg (by simp)]
      dsimp only [Option.getD_some]
      rw [hfalse]
      simp
    · intro h
      have htrue : (isAllowed lim address 5 60000 now).2 = true := by
        cases h2 : (isAllowed lim address 5 60000 now).2 with
        | false =>
          exact absurd ((isAllowed_false_iff lim address 5 60000 now).mp h2) h
        | true => rfl
      unfold hookSendBottle
      rw [if_neg (by simp), if_neg (by simp)]
      dsimp only [Option.getD_some]
      rw [htrue]
      cases hs : sanitizeBottleContent dangerousTest patternOk purify
          content <;> simp [hs]
  · intro lim address now bottleId dangerousTest patternOk purify content hv
    constructor
    · intro h
      have hfalse : (isAllowed lim (address ++ "_reply") 10 60000 now).2 =
          false :=
        (isAllowed_false_iff lim (address ++ "_reply") 10 60000 now).mpr h
      unfold hookReplyToBottle
      rw [if_neg (by simp), if_neg (by simp), if_neg (by simp [hv])]
      dsimp only [Option.getD_some]
      rw [hfalse]
      simp
    · intro h
      have htrue : (isAllowed lim (address ++ "_reply") 10 60000 now).2 =
          true := by
        cases h2 : (isAllowed lim (address ++ "_reply") 10 60000 now).2 with
        | false =>
          exact absurd
            ((isAllowed_false_iff lim (address ++ "_reply") 10 60000 now).mp
              h2) h
        | true => rfl
      unfold hookReplyToBottle
      rw [if_neg (by simp), if_neg (by simp), if_neg (by simp [hv])]
      dsimp only [Option.getD_some]
      rw [htrue]
      cases hs : sanitizeReplyContent dangerousTest patternOk purify
          content <;> simp [hs]
  · intro lim address now bottleId hv
    constructor
    · intro h
      have hfalse : (isAllowed lim (address ++ "_skip") 20 60000 now).2 =
          false :=
        (isAllowed_false_iff lim (address ++ "_skip") 20 60000 now).mpr h
      unfold hookSkipBottle
      rw [if_neg (by simp), if_neg (by simp), if_neg (by simp [hv])]
      dsimp only [Option.getD_some]
      rw [hfalse]
      simp
    · intro h
      have htrue : (isAllowed lim (address ++ "_skip") 20 60000 now).2 =
          true := by
        cases h2 : (isAllowed lim (address ++ "_skip") 20 60000 now).2 with
        | false =>
          exact absurd
            ((isAllowed_false_iff lim (address ++ "_skip") 20 60000 now).mp
              h2) h
        | true => rfl
      unfold hookSkipBottle
      rw [if_neg (by simp), if_neg (by simp), if_neg (by simp [hv])]
      dsimp only [Option.getD_some]
      rw [htrue]
      simp

/-- Witness for C9 at concrete inputs: with 5 sends already recorded in
the window the 6th send throws rate-limited with no write; with an empty
limiter the send is not limiter-rejected; 10 recorded replies block the
next reply; 20 recorded skips block the next skip. -/
theorem C9_rate_limits_witness :
    hookSendBottle true true true [("0xA", [0, 0, 0, 0, 0])] (some "0xA")
      1000 (fun _ => false) (fun _ => true) id [104] =
      ((isAllowed [("0xA", [0, 0, 0, 0, 0])] "0xA" 5 60000 1000).1,
        .error .rateLimited) ∧
    (hookSendBottle true true true [] (some "0xA") 1000 (fun _ => false)
      (fun _ => true) id [104]).2 ≠ .error .rateLimited ∧
    hookReplyToBottle true true true
      [("0xA_reply", List.replicate 10 0)] (some "0xA") 1000 1
      (fun _ => false) (fun _ => true) id [104] =
      ((isAllowed [("0xA_reply", List.replicate 10 0)] ("0xA" ++ "_reply")
        10 60000 1000).1, .error .rateLimited) ∧
    hookSkipBottle true true true [("0xA_skip", List.replicate 20 0)]
      (some "0xA") 1000 1 =
      ((isAllowed [("0xA_skip", List.replicate 20 0)] ("0xA" ++ "_skip")
        20 60000 1000).1, .error .rateLimited) := by
  refine ⟨?_, ?_, ?_, ?_⟩
  · exact (C9_rate_limits.2.1 [("0xA", [0, 0, 0, 0, 0])] "0xA" 1000
      (fun _ => false) (fun _ => true) id [104]).1 (by decide)
  · exact (C9_rate_limits.2.1 [] "0xA" 1000 (fun _ => false)
      (fun _ => true) id [104]).2 (by decide)
  · exact (C9_rate_limits.2.2.1 [("0xA_reply", List.replicate 10 0)] "0xA"
      1000 1 (fun _ => false) (fun _ => true) id [104] (by decide)).1
      (by decide)
  · exact (C9_rate_limits.2.2.2 [("0xA_skip", List.replicate 20 0)] "0xA"
      1000 1 (by decide)).1 (by decide)

/-- The `jsMapSet` grows a map by at most one entry. -/
theorem jsMapSet_length_le {V : Type} (m : List (String × V)) (k : String)
    (v : V) : (jsMapSet m k v).length ≤ m.length + 1 := by
  unfold jsMapSet
  split_ifs <;> simp

/-- The `jsMapDelete` never grows a map. -/
theorem jsMapDelete_length_le {V : Type} (m : List (String × V))
    (k : String) : (jsMapDelete m k).length ≤ m.length := by
  induction m with
  | nil => simp [jsMapDelete]
  | cons p rest ih =>
    unfold jsMapDelete
    split_ifs with h
    · simp
    · simp only [List.length_cons]
      omega

/-- The overridden `set` of `bottleDataCache` preserves the 100-entry
bound. -/
theorem bottleCacheSet_length_le {α : Type}
    (m : List (String × CacheEntry α)) (k : String) (v : CacheEntry α)
    (hm : m.length ≤ MAX_CACHE_SIZE) :
    (bottleCacheSet m k v).length ≤ MAX_CACHE_SIZE := by
  unfold bottleCacheSet
  by_cases h : MAX_CACHE_SIZE ≤ m.length
  · rw [if_pos h]
    cases m with
    | nil => simp [MAX_CACHE_SIZE] at h
    | cons p rest =>
      dsimp only
      have hdel : jsMapDelete (p :: rest) p.1 = rest := by
        unfold jsMapDelete
        simp
      rw [hdel]
      have hset := jsMapSet_length_le rest k v
      have hlen : rest.length + 1 ≤ MAX_CACHE_SIZE := by
        simpa using hm
      omega
  · rw [if_neg h]
    dsimp only
    have hset := jsMapSet_length_le m k v
    omega

/-- Any sequence of `readBottleData` / `readBottleReplies` cache
mutations preserves the 100-entry bound. -/
theorem applyCacheOps_length_le {α : Type}
    (ops : List (CacheOp α)) :
    ∀ m : List (String × CacheEntry α), m.length ≤ MAX_CACHE_SIZE →
      (applyCacheOps m ops).length ≤ MAX_CACHE_SIZE := by
  induction ops with
  | nil => intro m hm; exact hm
  | cons op rest ih =>
    intro m hm
    unfold applyCacheOps
    apply ih
    cases op with
    | del k =>
      have := jsMapDelete_length_le m k
      unfold applyCacheOp
      dsimp only
      omega
    | ins k v => exact bottleCacheSet_length_le m k v hm

/-- C10: the in-memory `bottleDataCache` never exceeds `MAX_CACHE_SIZE =
100` entries.  (i) One overridden `set` preserves the bound; (ii) so does
every sequence of deletions and insertions performed by `readBottleData`
and `readBottleReplies`; (iii) an insertion into a cache already holding
100 entries first evicts the oldest entry (the head of the insertion
order). -/
theorem C10_bottleDataCache_bound {α : Type} :
    (∀ (m : List (String × CacheEntry α)) (k : String) (v : CacheEntry α),
      m.length ≤ MAX_CACHE_SIZE →
        (bottleCacheSet m k v).length ≤ MAX_CACHE_SIZE) ∧
    (∀ (ops : List (CacheOp α)) (m : List (String × CacheEntry α)),
      m.length ≤ MAX_CACHE_SIZE →
        (applyCacheOps m ops).length ≤ MAX_CACHE_SIZE) ∧
    (∀ (p : String × CacheEntry α) (rest : List (String × CacheEntry α))
      (k : String) (v : CacheEntry α),
      (p :: rest).length = MAX_CACHE_SIZE →
        bottleCacheSet (p :: rest) k v = jsMapSet rest k v) := by
  refine ⟨bottleCacheSet_length_le, fun ops m => applyCacheOps_length_le ops m, ?_⟩
  intro p rest k v hlen
  unfold bottleCacheSet
  rw [if_pos (le_of_eq hlen.symm)]
  dsimp only
  have hdel : jsMapDelete (p :: rest) p.1 = rest := by
    unfold jsMapDelete
    simp
  rw [hdel]

/-- Witness for C10 at concrete inputs: one insertion into an empty
cache keeps the bound; a delete-then-insert sequence keeps the bound; an
insertion into a full 100-entry cache first drops the head. -/
theorem C10_bottleDataCache_bound_witness :
    (bottleCacheSet ([] : List (String × CacheEntry Nat)) "bottle_1"
      ⟨1, 0⟩).length ≤ MAX_CACHE_SIZE ∧
    (applyCacheOps ([("bottle_1", (⟨1, 0⟩ : CacheEntry Nat))])
      [.del "bottle_1", .ins "replies_1" ⟨2, 5⟩]).length ≤
        MAX_CACHE_SIZE ∧
    bottleCacheSet
      (("old", (⟨0, 0⟩ : CacheEntry Nat)) ::
        List.replicate 99 ("x", (⟨0, 0⟩ : CacheEntry Nat))) "bottle_1"
      ⟨1, 0⟩ =
      jsMapSet (List.replicate 99 ("x", (⟨0, 0⟩ : CacheEntry Nat)))
        "bottle_1" ⟨1, 0⟩ := by
  refine ⟨?_, ?_, ?_⟩
  · exact C10_bottleDataCache_bound.1 [] "bottle_1" ⟨1, 0⟩ (by decide)
  · exact C10_bottleDataCache_bound.2.1 _ _ (by decide)
  · exact C10_bottleDataCache_bound.2.2 ("old", ⟨0, 0⟩)
      (List.replicate 99 ("x", ⟨0, 0⟩)) "bottle_1" ⟨1, 0⟩
      (by simp [MAX_CACHE_SIZE])

end EchOcean
